import Mathlib

/-!
Verification of the led-matrix render pipeline (src/lib.rs, src/render.rs).

Shallow embedding conventions:
* `u8`/`u16`/`u32` values are `Nat`s; a cast that can truncate is modelled by
  an explicit `% 2^w`; arithmetic the source performs in a wider type that
  cannot overflow there is plain `Nat` arithmetic.
* An `RgbImage` is its pixel list.
* Canvas/driver side effects of the render thread are recorded in an event
  trace (`Event`): drawing, swapping, clearing, plus the in-loop publication
  of the status frame index.
* The mpsc channel is modelled by explicit schedules: the blocking `recv` of
  the dispatch loop by an `Option RenderCommand` argument, and the sequence of
  non-blocking `try_recv` results seen by an in-flight playback/scroll loop by
  a `List (Option RenderCommand)` (`none` = channel empty at that tick).
-/

namespace LedMatrix

/-- Modulus of `u32` arithmetic. -/
def U32MOD : Nat := 4294967296

-- ── Panel configuration (src/lib.rs) ────────────────────────────────

/-- PanelConfig from src/lib.rs: rows and cols are `u32` values. -/
structure PanelConfig where
  rows : Nat
  cols : Nat
deriving DecidableEq

/-- Total number of pixels on the panel: `self.rows * self.cols`, a `u32`
multiplication, which wraps modulo 2^32. -/
def PanelConfig.pixel_count (p : PanelConfig) : Nat :=
  (p.rows * p.cols) % U32MOD

/-- Bytes of a raw RGB frame: `(self.rows * self.cols * 3) as usize`.  The two
multiplications happen in `u32` (so the product is taken modulo 2^32); the
cast to 64-bit `usize` is then value-preserving. -/
def PanelConfig.frame_byte_count (p : PanelConfig) : Nat :=
  (p.rows * p.cols * 3) % U32MOD

/-- Default panel: 64 x 64. -/
def PanelConfig.default : PanelConfig := ⟨64, 64⟩

-- ── Color (src/lib.rs) ──────────────────────────────────────────────

/-- Color from src/lib.rs: three `u8` channels, carried as `Nat`s holding
values below 256. -/
structure Color where
  r : Nat
  g : Nat
  b : Nat
deriving DecidableEq

def Color.new (r g b : Nat) : Color := ⟨r, g, b⟩

/-- Color::from_hue.  The source computes `hue % 360`, the sector `hue / 60`,
and ramp channels `rising = (fraction * 255.0) as u8` and
`falling = ((1.0 - fraction) * 255.0) as u8` with
`fraction = ((hue % 60) as f32) / 60.0`.  The `f32` arithmetic is modelled
here by exact rational arithmetic followed by the truncating cast, i.e.
`⌊(hue % 60) * 255 / 60⌋` and `⌊(60 - hue % 60) * 255 / 60⌋` (`Nat` division);
the properties proved below depend only on the reduction `hue % 360`, not on
the per-channel magnitudes. -/
def Color.from_hue (hue : Nat) : Color :=
  let hue := hue % 360
  let sector := hue / 60
  let rising := (hue % 60) * 255 / 60
  let falling := (60 - hue % 60) * 255 / 60
  match sector with
  | 0 => Color.new 255 rising 0
  | 1 => Color.new falling 255 0
  | 2 => Color.new 0 255 rising
  | 3 => Color.new 0 falling 255
  | 4 => Color.new rising 0 255
  | 5 => Color.new 255 0 falling
  | _ => Color.new 255 0 0

/-- Color::apply_brightness: identity when `brightness >= 100`, otherwise each
channel becomes `((channel as u16 * brightness as u16) / 100) as u8`.  For
`u8`-valued channels and brightness the `u16` product cannot wrap, so it is
plain `Nat` multiplication; the final `as u8` cast is the `% 256`. -/
def Color.apply_brightness (c : Color) (brightness : Nat) : Color :=
  if 100 ≤ brightness then c
  else
    { r := c.r * brightness / 100 % 256,
      g := c.g * brightness / 100 % 256,
      b := c.b * brightness / 100 % 256 }

-- ── Images and brightness helpers (src/render.rs) ───────────────────

/-- An RgbImage, as its pixel list. -/
abbrev RgbImage := List Color

/-- apply_brightness_to_image: clone unchanged when `brightness >= 100`,
otherwise apply `Color::apply_brightness` to every pixel. -/
def apply_brightness_to_image (img : RgbImage) (brightness : Nat) : RgbImage :=
  if 100 ≤ brightness then img
  else img.map (fun c => c.apply_brightness brightness)

-- ── Status (src/render.rs) ──────────────────────────────────────────

/-- DisplayState from src/render.rs. -/
inductive DisplayState where
  | Idle
  | ShowingImage
  | PlayingVideo
  | ScrollingText
  | Streaming
deriving DecidableEq

/-- DisplayStatus from src/render.rs. -/
structure DisplayStatus where
  state : DisplayState
  current_media : Option String
  frame : Option Nat
  total_frames : Option Nat
  brightness : Nat
  version : String
deriving DecidableEq

/-- DisplayStatus::new — Idle, brightness 75; the version string comes from
the build environment and is a parameter here. -/
def DisplayStatus.new (version : String) : DisplayStatus :=
  { state := DisplayState.Idle, current_media := none, frame := none,
    total_frames := none, brightness := 75, version := version }

/-- DisplayStatus::set_idle. -/
def DisplayStatus.set_idle (s : DisplayStatus) : DisplayStatus :=
  { s with state := DisplayState.Idle, current_media := none,
           frame := none, total_frames := none }

-- ── Commands (src/render.rs) ────────────────────────────────────────

/-- RenderCommand from src/render.rs.  Paths are strings; the raw frame buffer
is its byte list. -/
inductive RenderCommand where
  | ShowImage (path : String)
  | PlayVideo (dir : String) (fps : Nat) (loop_playback : Bool)
  | ScrollText (text : String) (font : String) (color : Nat × Nat × Nat) (speed : Nat)
  | ShowFrame (data : List Nat)
  | Clear
  | Stop
  | SetBrightness (value : Nat)
deriving DecidableEq

/-- Whether a command is a SetBrightness — the one variant that does not
preempt an in-flight playback/scroll loop. -/
def RenderCommand.isSetBrightness : RenderCommand → Bool
  | RenderCommand.SetBrightness _ => true
  | _ => false

-- ── Canvas observations ─────────────────────────────────────────────

/-- Observable effects of the render loop on the canvas/matrix, plus the
in-loop publication of the status frame index.  Draw events carry enough
payload to identify what was drawn. -/
inductive Event where
  /-- draw_frame_to_canvas (no brightness scaling; used for pre-baked video
  frames). -/
  | drawFrame (img : RgbImage)
  /-- draw_frame_with_brightness. -/
  | drawImage (img : RgbImage) (brightness : Nat)
  /-- draw_raw_frame. -/
  | drawRaw (data : List Nat) (brightness : Nat)
  /-- canvas.draw_text of the scroll loop. -/
  | drawText (text : String) (x : Int) (y : Int) (c : Color)
  /-- canvas.clear(). -/
  | clear
  /-- matrix.swap(canvas). -/
  | swap
  /-- the playback loop setting `status.frame = Some i`. -/
  | statusFrame (i : Nat)
deriving DecidableEq

/-- The frame indices a trace published, in order. -/
def statusFrames (evs : List Event) : List Nat :=
  evs.filterMap (fun e =>
    match e with
    | Event.statusFrame i => some i
    | _ => none)

-- ── Engine state and simple command arms (render_loop, src/render.rs) ──

/-- State carried by the render loop between commands: the shared brightness
cell (`Arc<Mutex<u8>>`, started at 75), the published status, and the trace of
canvas effects so far. -/
structure EngineState where
  brightness : Nat
  status : DisplayStatus
  events : List Event
deriving DecidableEq

/-- RenderCommand::Clear arm: clear the canvas, swap, set status idle. -/
def execClear (es : EngineState) : EngineState :=
  { es with events := es.events ++ [Event.clear, Event.swap],
            status := es.status.set_idle }

/-- RenderCommand::Stop arm: set status idle without touching the canvas. -/
def execStop (es : EngineState) : EngineState :=
  { es with status := es.status.set_idle }

/-- RenderCommand::SetBrightness arm: `value.min(100)` into the shared cell
and `status.brightness`. -/
def execSetBrightness (value : Nat) (es : EngineState) : EngineState :=
  let new_brightness := min value 100
  { es with brightness := new_brightness,
            status := { es.status with brightness := new_brightness } }

/-- RenderCommand::ShowFrame arm: if `data.len() == panel.frame_byte_count()`,
draw the raw frame at the current brightness and swap; otherwise only log an
error (no draw, no swap, no status change). -/
def execShowFrame (data : List Nat) (panel : PanelConfig) (es : EngineState) :
    EngineState :=
  let expected := panel.frame_byte_count
  if data.length = expected then
    { es with events := es.events ++ [Event.drawRaw data es.brightness, Event.swap] }
  else
    es

/-- RenderCommand::ShowImage arm: status is set to ShowingImage with the path
first; then the load-and-resize result (a parameter here, the filesystem being
external) is drawn with the current brightness and swapped, or on load failure
the status reverts to idle. -/
def execShowImage (loadResult : Option RgbImage) (path : String) (es : EngineState) :
    EngineState :=
  let es1 := { es with status :=
    { es.status with state := DisplayState.ShowingImage, current_media := some path,
                     frame := none, total_frames := none } }
  match loadResult with
  | some img =>
      { es1 with events := es1.events ++ [Event.drawImage img es1.brightness, Event.swap] }
  | none =>
      { es1 with status := es1.status.set_idle }

/-- Head of the dispatch loop (render_loop lines 249-261): take the pending
command if one was stashed by a preempted playback/scroll loop, otherwise use
the blocking `recv` result (`none` = channel closed, loop breaks).  Returns
the command to execute and the pending slot after `take()`. -/
def dispatchNext (pending_cmd : Option RenderCommand) (recv : Option RenderCommand) :
    Option (RenderCommand × Option RenderCommand) :=
  match pending_cmd with
  | some cmd => some (cmd, none)
  | none =>
      match recv with
      | some cmd => some (cmd, none)
      | none => none

-- ── In-flight loops: one step per tick ──────────────────────────────

/-- Result of one tick of a labelled loop: keep looping, or break out carrying
the pending-command slot. -/
inductive StepResult (σ : Type) where
  | cont (s : σ)
  | exit (s : σ) (pending_cmd : Option RenderCommand)
deriving DecidableEq

/-- The state a step result carries, whether the loop continued or broke. -/
def StepResult.state {σ : Type} : StepResult σ → σ
  | StepResult.cont s => s
  | StepResult.exit s _ => s

/-- Result of running a loop against a finite schedule of try_recv outcomes:
still running when the schedule is exhausted, or broken out with the pending
slot. -/
inductive RunResult (σ : Type) where
  | running (s : σ)
  | exited (s : σ) (pending_cmd : Option RenderCommand)
deriving DecidableEq

/-- Run a tick loop against a schedule of try_recv results, one per tick. -/
def runLoop {σ : Type} (step : Option RenderCommand → σ → StepResult σ) :
    List (Option RenderCommand) → σ → RunResult σ
  | [], s => RunResult.running s
  | input :: rest, s =>
      match step input s with
      | StepResult.cont s' => runLoop step rest s'
      | StepResult.exit s' p => RunResult.exited s' p

-- ── PlayVideo (render_loop playback loop) ──────────────────────────

/-- Pre-loading of video frames: each successfully loaded frame gets the
brightness snapshot pre-applied and is kept; failed loads are skipped. -/
def videoPreload (loadResults : List (Option RgbImage)) (current_brightness : Nat) :
    List RgbImage :=
  loadResults.filterMap (fun res =>
    res.map (fun img => apply_brightness_to_image img current_brightness))

/-- Status block entered before the playback loop: PlayingVideo, the directory
as media label, frame 0, the frame count. -/
def videoStartStatus (s : DisplayStatus) (dir_str : String) (frame_count : Nat) :
    DisplayStatus :=
  { s with state := DisplayState.PlayingVideo, current_media := some dir_str,
           frame := some 0, total_frames := some frame_count }

/-- Loop-local state of the playback loop: the frame cursor plus the engine
state it mutates (shared brightness cell, status, canvas trace). -/
structure PlaybackState where
  frame_index : Nat
  brightness : Nat
  status : DisplayStatus
  events : List Event
deriving DecidableEq

/-- Body of a playback tick after the try_recv check: draw the pre-baked
frame, swap, publish `status.frame = Some(frame_index)`, advance the cursor;
at the end of the sequence either wrap to 0 (`loop_playback`) or clear, swap,
set the status idle and break with nothing pending. -/
def playbackDraw (frames : List RgbImage) (loop_playback : Bool)
    (st : PlaybackState) : StepResult PlaybackState :=
  let img := frames.getD st.frame_index []
  let events1 := st.events ++
    [Event.drawFrame img, Event.swap, Event.statusFrame st.frame_index]
  let status1 := { st.status with frame := some st.frame_index }
  let fi := st.frame_index + 1
  if frames.length ≤ fi then
    if loop_playback then
      StepResult.cont
        { frame_index := 0, brightness := st.brightness,
          status := status1, events := events1 }
    else
      StepResult.exit
        { frame_index := fi, brightness := st.brightness,
          status := status1.set_idle,
          events := events1 ++ [Event.clear, Event.swap] } none
  else
    StepResult.cont
      { frame_index := fi, brightness := st.brightness,
        status := status1, events := events1 }

/-- One tick of the playback loop: a non-blocking try_recv first — a
SetBrightness updates the shared cell and the published brightness and the
tick proceeds (pre-baked frames untouched); any other arriving command is
stashed as pending and the loop breaks; with no arrival the tick proceeds. -/
def playbackStep (frames : List RgbImage) (loop_playback : Bool)
    (input : Option RenderCommand) (st : PlaybackState) : StepResult PlaybackState :=
  match input with
  | some (RenderCommand.SetBrightness value) =>
      let new_brightness := min value 100
      playbackDraw frames loop_playback
        { st with brightness := new_brightness,
                  status := { st.status with brightness := new_brightness } }
  | some cmd => StepResult.exit st (some cmd)
  | none => playbackDraw frames loop_playback st

-- ── ScrollText (render_loop scroll loop) ───────────────────────────

/-- Status block entered before the scroll loop. -/
def scrollStartStatus (s : DisplayStatus) (text : String) : DisplayStatus :=
  { s with state := DisplayState.ScrollingText, current_media := some text,
           frame := none, total_frames := none }

/-- `start_x = panel.cols as i32`: the text enters from the right edge. -/
def scrollStartX (panel : PanelConfig) : Int := (panel.cols : Int)

/-- `end_x = -text_width` with `text_width = (text.len() as i32) * 8`
(`len()` counts UTF-8 bytes). -/
def scrollEndX (text : String) : Int := -((text.utf8ByteSize : Int) * 8)

/-- Loop-local state of the scroll loop: the x position, the locally cached
brightness, plus the engine state (shared cell, status, canvas trace). -/
structure ScrollState where
  x : Int
  current_brightness : Nat
  brightness : Nat
  status : DisplayStatus
  events : List Event
deriving DecidableEq

/-- Body of a scroll tick after the try_recv check: compute the text color at
the cached brightness, clear, draw the text at the current x (y fixed at 40),
swap, move one pixel left, wrapping to `start_x` after passing `end_x`.  This
body always continues the loop. -/
def scrollDraw (text : String) (r g b : Nat) (start_x end_x : Int)
    (st : ScrollState) : StepResult ScrollState :=
  let text_color := (Color.new r g b).apply_brightness st.current_brightness
  let events1 := st.events ++
    [Event.clear, Event.drawText text st.x 40 text_color, Event.swap]
  let x1 := st.x - 1
  StepResult.cont
    { st with events := events1, x := if x1 < end_x then start_x else x1 }

/-- One tick of the scroll loop: a non-blocking try_recv first — a
SetBrightness updates the cached brightness, the shared cell and the published
brightness and the tick proceeds (so the very next redraw uses it); any other
arriving command is stashed as pending and the loop breaks. -/
def scrollStep (text : String) (r g b : Nat) (start_x end_x : Int)
    (input : Option RenderCommand) (st : ScrollState) : StepResult ScrollState :=
  match input with
  | some (RenderCommand.SetBrightness value) =>
      let new_brightness := min value 100
      scrollDraw text r g b start_x end_x
        { st with current_brightness := new_brightness,
                  brightness := new_brightness,
                  status := { st.status with brightness := new_brightness } }
  | some cmd => StepResult.exit st (some cmd)
  | none => scrollDraw text r g b start_x end_x st

/-- A try_recv outcome that does not preempt an in-flight loop: nothing
arrived, or a SetBrightness arrived. -/
def isBenign : Option RenderCommand → Bool
  | none => true
  | some cmd => cmd.isSetBrightness

-- ── Theorems ────────────────────────────────────────────────────────

/-- C8: for every hue of the input type `u16` (indeed for every natural),
`from_hue hue = from_hue (hue % 360)`: the function is total via the modulo
reduction performed on entry. -/
theorem from_hue_periodic (hue : Nat) :
    Color.from_hue hue = Color.from_hue (hue % 360) := by
  unfold Color.from_hue
  rw [Nat.mod_mod_of_dvd hue dvd_rfl]

/-- C6: `apply_brightness` is the identity for brightness ≥ 100; below 100
each channel is the truncating division `channel * brightness / 100`, and for
`u8`-valued inputs the wider arithmetic never overflows (the final `as u8`
cast truncates nothing); brightness 0 yields black, and brightness 50 halves
each channel with truncation. -/
theorem apply_brightness_spec (c : Color) (brightness : Nat) :
    (100 ≤ brightness → c.apply_brightness brightness = c)
  ∧ (brightness < 100 → c.r ≤ 255 → c.g ≤ 255 → c.b ≤ 255 →
      c.apply_brightness brightness =
        Color.new (c.r * brightness / 100) (c.g * brightness / 100)
          (c.b * brightness / 100))
  ∧ c.apply_brightness 0 = Color.new 0 0 0
  ∧ (c.r ≤ 255 → c.g ≤ 255 → c.b ≤ 255 →
      c.apply_brightness 50 = Color.new (c.r / 2) (c.g / 2) (c.b / 2)) := by
  refine ⟨fun h => by simp [Color.apply_brightness, h], ?_, ?_, ?_⟩
  · intro hlt hr hg hb
    have h99 : brightness ≤ 99 := by omega
    have h1 : c.r * brightness ≤ 25245 :=
      le_trans (Nat.mul_le_mul hr h99) (by norm_num)
    have h2 : c.g * brightness ≤ 25245 :=
      le_trans (Nat.mul_le_mul hg h99) (by norm_num)
    have h3 : c.b * brightness ≤ 25245 :=
      le_trans (Nat.mul_le_mul hb h99) (by norm_num)
    unfold Color.apply_brightness Color.new
    rw [if_neg (not_le.mpr hlt)]
    simp only [Color.mk.injEq]
    refine ⟨?_, ?_, ?_⟩ <;> omega
  · simp [Color.apply_brightness, Color.new]
  · intro hr hg hb
    unfold Color.apply_brightness Color.new
    rw [if_neg (by omega)]
    simp only [Color.mk.injEq]
    refine ⟨?_, ?_, ?_⟩ <;> omega

/-- C6 witness: brightness 50 halves (200,100,50) with truncation. -/
theorem apply_brightness_spec_witness :
    Color.apply_brightness (Color.new 200 100 50) 50 =
      Color.new (200 / 2) (100 / 2) (50 / 2) :=
  (apply_brightness_spec (Color.new 200 100 50) 50).2.2.2
    (by decide) (by decide) (by decide)

/-- C9 (amended): when `rows * cols * 3` fits in `u32`, `pixel_count` is
`rows * cols` and `frame_byte_count` is `rows * cols * 3`; concretely 64×64
gives 4096 pixels and 12288 bytes, and 32×32 gives 3072 bytes.  (Without the
fit hypothesis the `u32` multiplication wraps, see the counterexample.) -/
theorem panel_geometry (p : PanelConfig) (hr : 0 < p.rows) (hc : 0 < p.cols)
    (h : p.rows * p.cols * 3 < U32MOD) :
    p.pixel_count = p.rows * p.cols
  ∧ p.frame_byte_count = p.rows * p.cols * 3
  ∧ PanelConfig.pixel_count ⟨64, 64⟩ = 4096
  ∧ PanelConfig.frame_byte_count ⟨64, 64⟩ = 12288
  ∧ PanelConfig.frame_byte_count ⟨32, 32⟩ = 3072 := by
  have hlt : p.rows * p.cols < U32MOD := by
    have : p.rows * p.cols ≤ p.rows * p.cols * 3 := Nat.le_mul_of_pos_right _ (by omega)
    omega
  exact ⟨Nat.mod_eq_of_lt hlt, Nat.mod_eq_of_lt h, by decide, by decide, by decide⟩

/-- C9 counterexample: on a 65536×65536 panel the `u32` product wraps to 0, so
`pixel_count` is not `rows * cols` for every positive configuration. -/
theorem panel_geometry_cex :
    PanelConfig.pixel_count ⟨65536, 65536⟩ ≠ 65536 * 65536 := by decide

/-- C9 witness: the amended statement evaluated on the 64×64 panel. -/
theorem panel_geometry_witness :
    PanelConfig.pixel_count ⟨64, 64⟩ = 64 * 64 :=
  (panel_geometry ⟨64, 64⟩ (by decide) (by decide) (by decide)).1

/-- C7: the SetBrightness arm stores `min value 100` in the shared cell and in
the published status (150 publishes as 100), emits no canvas effect, and
leaves the state, media label and frame fields of the status unchanged. -/
theorem setBrightness_spec (value : Nat) (es : EngineState) :
    (execSetBrightness value es).brightness = min value 100
  ∧ (execSetBrightness value es).status.brightness = min value 100
  ∧ (execSetBrightness value es).events = es.events
  ∧ (execSetBrightness value es).status.state = es.status.state
  ∧ (execSetBrightness value es).status.current_media = es.status.current_media
  ∧ (execSetBrightness value es).status.frame = es.status.frame
  ∧ (execSetBrightness value es).status.total_frames = es.status.total_frames
  ∧ (execSetBrightness 150 es).status.brightness = 100 := by
  simp [execSetBrightness]

/-- C10: `set_idle` sets the state to Idle and clears the media label and both
frame fields while preserving brightness and version; the Stop and Clear arms
go through it, so neither resets the published brightness. -/
theorem set_idle_spec (s : DisplayStatus) (es : EngineState) :
    s.set_idle.state = DisplayState.Idle
  ∧ s.set_idle.current_media = none
  ∧ s.set_idle.frame = none
  ∧ s.set_idle.total_frames = none
  ∧ s.set_idle.brightness = s.brightness
  ∧ s.set_idle.version = s.version
  ∧ (execStop es).status = es.status.set_idle
  ∧ (execClear es).status = es.status.set_idle
  ∧ (execStop es).status.brightness = es.status.brightness
  ∧ (execClear es).status.brightness = es.status.brightness := by
  simp [DisplayStatus.set_idle, execStop, execClear]

/-- C2: a ShowFrame buffer whose length differs from `frame_byte_count` is
rejected: the engine state (status and canvas trace) is completely unchanged;
a buffer is drawn and swapped exactly when the length matches. -/
theorem showFrame_spec (data : List Nat) (panel : PanelConfig) (es : EngineState) :
    (data.length ≠ panel.frame_byte_count → execShowFrame data panel es = es)
  ∧ (data.length = panel.frame_byte_count →
      (execShowFrame data panel es).events =
        es.events ++ [Event.drawRaw data es.brightness, Event.swap]
      ∧ (execShowFrame data panel es).status = es.status) := by
  constructor
  · intro h
    simp [execShowFrame, h]
  · intro h
    simp [execShowFrame, h]

/-- C2 witness: a buffer one byte short of the 64×64 frame size (12287 instead
of 12288) leaves the engine state untouched. -/
theorem showFrame_spec_witness :
    execShowFrame (List.replicate 12287 0) ⟨64, 64⟩
      { brightness := 75, status := DisplayStatus.new "0.1.0", events := [] } =
      { brightness := 75, status := DisplayStatus.new "0.1.0", events := [] } :=
  (showFrame_spec (List.replicate 12287 0) ⟨64, 64⟩
      { brightness := 75, status := DisplayStatus.new "0.1.0", events := [] }).1
    (by norm_num [PanelConfig.frame_byte_count, U32MOD])

/-- Whether a run result is still inside the loop. -/
def RunResult.isRunning {σ : Type} : RunResult σ → Bool
  | RunResult.running _ => true
  | RunResult.exited _ _ => false

/-- State carried by a run result. -/
def RunResult.state {σ : Type} : RunResult σ → σ
  | RunResult.running s => s
  | RunResult.exited s _ => s

/-- Helper: a benign try_recv outcome (nothing, or SetBrightness) makes the
scroll loop continue, preserving the published display state. -/
theorem scroll_benign_step (text : String) (r g b : Nat) (start_x end_x : Int)
    (input : Option RenderCommand) (st : ScrollState)
    (h : isBenign input = true) :
    ∃ st1, scrollStep text r g b start_x end_x input st = StepResult.cont st1
         ∧ st1.status.state = st.status.state := by
  match input with
  | none => exact ⟨_, rfl, rfl⟩
  | some (RenderCommand.SetBrightness v) => exact ⟨_, rfl, rfl⟩
  | some (RenderCommand.ShowImage _) => simp [isBenign, RenderCommand.isSetBrightness] at h
  | some (RenderCommand.PlayVideo _ _ _) => simp [isBenign, RenderCommand.isSetBrightness] at h
  | some (RenderCommand.ScrollText _ _ _ _) => simp [isBenign, RenderCommand.isSetBrightness] at h
  | some (RenderCommand.ShowFrame _) => simp [isBenign, RenderCommand.isSetBrightness] at h
  | some RenderCommand.Clear => simp [isBenign, RenderCommand.isSetBrightness] at h
  | some RenderCommand.Stop => simp [isBenign, RenderCommand.isSetBrightness] at h

/-- C1: a non-SetBrightness command seen by the in-flight playback or scroll
loop makes the loop break at that very tick, with the loop state untouched
and exactly that command stashed as pending; the dispatch head then yields
the stashed command as the next command to execute, without consulting (or
blocking on) the channel — so the command is never dropped. -/
theorem preemption_spec (cmd : RenderCommand) (h : cmd.isSetBrightness = false)
    (frames : List RgbImage) (lp : Bool) (st : PlaybackState)
    (text : String) (r g b : Nat) (start_x end_x : Int) (sst : ScrollState)
    (recv : Option RenderCommand) :
    playbackStep frames lp (some cmd) st = StepResult.exit st (some cmd)
  ∧ scrollStep text r g b start_x end_x (some cmd) sst = StepResult.exit sst (some cmd)
  ∧ dispatchNext (some cmd) recv = some (cmd, none) := by
  refine ⟨?_, ?_, rfl⟩ <;>
    cases cmd <;>
      first
        | rfl
        | simp [RenderCommand.isSetBrightness] at h

/-- C1 witness: a Stop arriving during playback and during scrolling is
stashed and is the next command dispatched, even with another command queued
behind it. -/
theorem preemption_spec_witness :
    playbackStep [[Color.new 1 2 3]] true (some RenderCommand.Stop)
        { frame_index := 0, brightness := 75,
          status := DisplayStatus.new "0.1.0", events := [] } =
      StepResult.exit
        { frame_index := 0, brightness := 75,
          status := DisplayStatus.new "0.1.0", events := [] }
        (some RenderCommand.Stop)
  ∧ scrollStep "hi" 255 0 0 64 (-16) (some RenderCommand.Stop)
        { x := 64, current_brightness := 75, brightness := 75,
          status := DisplayStatus.new "0.1.0", events := [] } =
      StepResult.exit
        { x := 64, current_brightness := 75, brightness := 75,
          status := DisplayStatus.new "0.1.0", events := [] }
        (some RenderCommand.Stop)
  ∧ dispatchNext (some RenderCommand.Stop) (some RenderCommand.Clear) =
      some (RenderCommand.Stop, none) :=
  preemption_spec RenderCommand.Stop rfl [[Color.new 1 2 3]] true
    { frame_index := 0, brightness := 75,
      status := DisplayStatus.new "0.1.0", events := [] }
    "hi" 255 0 0 64 (-16)
    { x := 64, current_brightness := 75, brightness := 75,
      status := DisplayStatus.new "0.1.0", events := [] }
    (some RenderCommand.Clear)

/-- C3: a SetBrightness arriving during playback never stashes a pending
command (no preemption); the shared cell and published brightness become
`min value 100`; the frame drawn on that very tick is still the pre-baked
`frames[frame_index]`.  During scrolling the loop likewise continues, the
cached and shared brightness and the published brightness are updated, and
the redraw of that same tick already uses the text color scaled by the new
brightness. -/
theorem setBrightness_inflight_spec (value : Nat) (frames : List RgbImage)
    (lp : Bool) (st : PlaybackState) (text : String) (r g b : Nat)
    (start_x end_x : Int) (sst : ScrollState) :
    (∀ st' p, playbackStep frames lp (some (RenderCommand.SetBrightness value)) st
        = StepResult.exit st' p → p = none)
  ∧ (playbackStep frames lp (some (RenderCommand.SetBrightness value)) st).state.brightness
      = min value 100
  ∧ (playbackStep frames lp (some (RenderCommand.SetBrightness value)) st).state.status.brightness
      = min value 100
  ∧ (∃ rest,
      (playbackStep frames lp (some (RenderCommand.SetBrightness value)) st).state.events
        = st.events ++ Event.drawFrame (frames.getD st.frame_index []) ::
            Event.swap :: rest)
  ∧ (∃ sst1, scrollStep text r g b start_x end_x
        (some (RenderCommand.SetBrightness value)) sst = StepResult.cont sst1
      ∧ sst1.current_brightness = min value 100
      ∧ sst1.brightness = min value 100
      ∧ sst1.status.brightness = min value 100
      ∧ sst1.events = sst.events ++
          [Event.clear,
           Event.drawText text sst.x 40
             ((Color.new r g b).apply_brightness (min value 100)),
           Event.swap]) := by
  refine ⟨?_, ?_, ?_, ?_, ?_⟩
  · intro st' p
    simp only [playbackStep, playbackDraw]
    split
    · split
      · intro h
        exact absurd h (by simp)
      · intro h
        simp only [StepResult.exit.injEq] at h
        exact h.2.symm
    · intro h
      exact absurd h (by simp)
  · simp only [playbackStep, playbackDraw]
    split <;> [skip; rfl] <;> split <;> rfl
  · simp only [playbackStep, playbackDraw]
    split
    · split
      · rfl
      · simp [StepResult.state, DisplayStatus.set_idle]
    · rfl
  · simp only [playbackStep, playbackDraw]
    split
    · split
      · exact ⟨[Event.statusFrame st.frame_index], by simp [StepResult.state]⟩
      · exact ⟨[Event.statusFrame st.frame_index, Event.clear, Event.swap],
          by simp [StepResult.state]⟩
    · exact ⟨[Event.statusFrame st.frame_index], by simp [StepResult.state]⟩
  · exact ⟨_, rfl, rfl, rfl, rfl, by simp [scrollDraw]⟩

/-- C3 witness: SetBrightness 150 during playback continues the run and
publishes brightness `min 150 100`. -/
theorem setBrightness_inflight_spec_witness :
    (playbackStep [[Color.new 9 9 9], [Color.new 8 8 8]] false
        (some (RenderCommand.SetBrightness 150))
        { frame_index := 0, brightness := 75,
          status := DisplayStatus.new "0.1.0", events := [] }).state.status.brightness
      = min 150 100 :=
  (setBrightness_inflight_spec 150 [[Color.new 9 9 9], [Color.new 8 8 8]] false
      { frame_index := 0, brightness := 75,
        status := DisplayStatus.new "0.1.0", events := [] }
      "hi" 255 0 0 64 (-16)
      { x := 64, current_brightness := 75, brightness := 75,
        status := DisplayStatus.new "0.1.0", events := [] }).2.2.1

/-- C5: under a schedule of only benign try_recv outcomes (nothing or
SetBrightness) the scroll loop is still running after every tick, with the
published state unchanged; no tick ever changes the published state; and the
loop breaks only when a non-SetBrightness command arrives, which becomes the
pending command with the loop state untouched.  The x cursor wraps back to
`start_x` once the text has fully scrolled past `end_x`. -/
theorem scroll_spec (text : String) (r g b : Nat) (start_x end_x : Int) :
    (∀ inputs (st : ScrollState), (∀ i ∈ inputs, isBenign i = true) →
        (runLoop (scrollStep text r g b start_x end_x) inputs st).isRunning = true
      ∧ ((runLoop (scrollStep text r g b start_x end_x) inputs st).state).status.state
          = st.status.state)
  ∧ (∀ input (st : ScrollState),
      (scrollStep text r g b start_x end_x input st).state.status.state
        = st.status.state)
  ∧ (∀ input (st st' : ScrollState) p,
      scrollStep text r g b start_x end_x input st = StepResult.exit st' p →
        ∃ cmd, input = some cmd ∧ cmd.isSetBrightness = false
             ∧ p = some cmd ∧ st' = st)
  ∧ (∀ st : ScrollState,
      (scrollStep text r g b start_x end_x none st).state.x =
        if st.x - 1 < end_x then start_x else st.x - 1) := by
  refine ⟨?_, ?_, ?_, ?_⟩
  · intro inputs
    induction inputs with
    | nil => exact fun st _ => ⟨rfl, rfl⟩
    | cons i rest ih =>
      intro st hben
      have hi : isBenign i = true := hben i (by simp)
      obtain ⟨st1, hstep, hstate⟩ :=
        scroll_benign_step text r g b start_x end_x i st hi
      have hrest : ∀ j ∈ rest, isBenign j = true := fun j hj => hben j (by simp [hj])
      obtain ⟨h1, h2⟩ := ih st1 hrest
      rw [runLoop, hstep]
      exact ⟨h1, h2.trans hstate⟩
  · intro input st
    match input with
    | none => simp [scrollStep, scrollDraw, StepResult.state]
    | some (RenderCommand.SetBrightness v) => simp [scrollStep, scrollDraw, StepResult.state]
    | some (RenderCommand.ShowImage _) => rfl
    | some (RenderCommand.PlayVideo _ _ _) => rfl
    | some (RenderCommand.ScrollText _ _ _ _) => rfl
    | some (RenderCommand.ShowFrame _) => rfl
    | some RenderCommand.Clear => rfl
    | some RenderCommand.Stop => rfl
  · intro input st st' p h
    match input with
    | none => exact absurd h (by simp [scrollStep, scrollDraw])
    | some (RenderCommand.SetBrightness v) => exact absurd h (by simp [scrollStep, scrollDraw])
    | some (RenderCommand.ShowImage pa) =>
      simp only [scrollStep, StepResult.exit.injEq] at h
      exact ⟨_, rfl, rfl, h.2.symm, h.1.symm⟩
    | some (RenderCommand.PlayVideo d f l) =>
      simp only [scrollStep, StepResult.exit.injEq] at h
      exact ⟨_, rfl, rfl, h.2.symm, h.1.symm⟩
    | some (RenderCommand.ScrollText t f c s) =>
      simp only [scrollStep, StepResult.exit.injEq] at h
      exact ⟨_, rfl, rfl, h.2.symm, h.1.symm⟩
    | some (RenderCommand.ShowFrame d) =>
      simp only [scrollStep, StepResult.exit.injEq] at h
      exact ⟨_, rfl, rfl, h.2.symm, h.1.symm⟩
    | some RenderCommand.Clear =>
      simp only [scrollStep, StepResult.exit.injEq] at h
      exact ⟨_, rfl, rfl, h.2.symm, h.1.symm⟩
    | some RenderCommand.Stop =>
      simp only [scrollStep, StepResult.exit.injEq] at h
      exact ⟨_, rfl, rfl, h.2.symm, h.1.symm⟩
  · intro st
    simp [scrollStep, scrollDraw, StepResult.state]

/-- C5 witness: two benign ticks (channel empty, then SetBrightness 10) leave
the scroll loop still running. -/
theorem scroll_spec_witness :
    (runLoop (scrollStep "hi" 255 0 0 64 (-16))
        [none, some (RenderCommand.SetBrightness 10)]
        { x := 64, current_brightness := 75, brightness := 75,
          status := scrollStartStatus (DisplayStatus.new "0.1.0") "hi",
          events := [] }).isRunning = true :=
  ((scroll_spec "hi" 255 0 0 64 (-16)).1
    [none, some (RenderCommand.SetBrightness 10)]
    { x := 64, current_brightness := 75, brightness := 75,
      status := scrollStartStatus (DisplayStatus.new "0.1.0") "hi",
      events := [] }
    (by decide)).1

/-- Helper: unfolding one tick of `runLoop` when the step continues. -/
theorem runLoop_cons_cont {σ : Type} {step : Option RenderCommand → σ → StepResult σ}
    {input : Option RenderCommand} {rest : List (Option RenderCommand)} {s s' : σ}
    (h : step input s = StepResult.cont s') :
    runLoop step (input :: rest) s = runLoop step rest s' := by
  rw [runLoop, h]

/-- Helper: unfolding one tick of `runLoop` when the step breaks out. -/
theorem runLoop_cons_exit {σ : Type} {step : Option RenderCommand → σ → StepResult σ}
    {input : Option RenderCommand} {rest : List (Option RenderCommand)} {s s' : σ}
    {p : Option RenderCommand} (h : step input s = StepResult.exit s' p) :
    runLoop step (input :: rest) s = RunResult.exited s' p := by
  rw [runLoop, h]

/-- Helper: with no arrival the playback tick is just its draw body. -/
theorem playbackStep_none {frames : List RgbImage} {lp : Bool} {st : PlaybackState} :
    playbackStep frames lp none st = playbackDraw frames lp st := rfl

/-- Helper: the playback tick on the last frame of a non-looping run clears,
swaps, sets the status idle and breaks with nothing pending. -/
theorem playbackDraw_last (frames : List RgbImage) (st : PlaybackState)
    (h : frames.length = st.frame_index + 1) :
    playbackDraw frames false st = StepResult.exit
      { frame_index := st.frame_index + 1, brightness := st.brightness,
        status := st.status.set_idle,
        events := st.events ++
          [Event.drawFrame (frames.getD st.frame_index []), Event.swap,
           Event.statusFrame st.frame_index, Event.clear, Event.swap] } none := by
  simp [playbackDraw, h, DisplayStatus.set_idle]

/-- Helper: a playback tick strictly before the last frame draws, swaps,
publishes the index and advances the cursor. -/
theorem playbackDraw_mid (frames : List RgbImage) (st : PlaybackState)
    (h : st.frame_index + 1 < frames.length) :
    playbackDraw frames false st = StepResult.cont
      { frame_index := st.frame_index + 1, brightness := st.brightness,
        status := { st.status with frame := some st.frame_index },
        events := st.events ++
          [Event.drawFrame (frames.getD st.frame_index []), Event.swap,
           Event.statusFrame st.frame_index] } := by
  simp only [playbackDraw]
  rw [if_neg (by omega)]

/-- Helper: a non-looping playback run with an all-quiet channel, started at
cursor `i` with `k` frames left, draws frames `i, i+1, ...` in order, then
clears, swaps, sets the status idle and exits with nothing pending. -/
theorem playback_run_aux (frames : List RgbImage) :
    ∀ (k i : Nat) (st : PlaybackState), 0 < k → i + k = frames.length →
      st.frame_index = i →
      runLoop (playbackStep frames false) (List.replicate k none) st =
        RunResult.exited
          { frame_index := frames.length, brightness := st.brightness,
            status := st.status.set_idle,
            events := st.events ++
              ((List.range' i k).flatMap (fun j =>
                [Event.drawFrame (frames.getD j []), Event.swap, Event.statusFrame j])
               ++ [Event.clear, Event.swap]) }
          none := by
  intro k
  induction k with
  | zero => intro i st h0 _ _; exact absurd h0 (by omega)
  | succ k ih =>
    intro i st _ hk hfi
    rw [List.replicate_succ]
    by_cases hlast : frames.length = st.frame_index + 1
    · have hk0 : k = 0 := by omega
      subst hk0
      rw [runLoop_cons_exit (playbackStep_none.trans (playbackDraw_last frames st hlast))]
      subst hfi
      simp [hlast, List.range'_succ, DisplayStatus.set_idle]
    · have hmid : st.frame_index + 1 < frames.length := by omega
      rw [runLoop_cons_cont (playbackStep_none.trans (playbackDraw_mid frames st hmid))]
      rw [ih (i + 1)
        { frame_index := st.frame_index + 1, brightness := st.brightness,
          status := { st.status with frame := some st.frame_index },
          events := st.events ++
            [Event.drawFrame (frames.getD st.frame_index []), Event.swap,
             Event.statusFrame st.frame_index] }
        (by omega) (by omega) (by simp [hfi])]
      subst hfi
      simp [List.range'_succ, DisplayStatus.set_idle, List.flatMap_cons]

/-- Helper: the frame indices published by a run of draw/swap/publish chunks
are exactly the chunk indices, in order. -/
theorem statusFrames_flatMap (l : List Nat) (g : Nat → RgbImage) :
    statusFrames (l.flatMap (fun j =>
      [Event.drawFrame (g j), Event.swap, Event.statusFrame j])) = l := by
  induction l with
  | nil => rfl
  | cons a t ih =>
    simp only [statusFrames, List.flatMap_cons, List.filterMap_append] at ih ⊢
    simp only [List.filterMap_cons, List.filterMap_nil] at ih ⊢
    simpa using ih

/-- C4: a non-looping PlayVideo over N pre-loaded frames with a quiet channel
publishes `total_frames = N`, draws and swaps each frame and publishes the
indices `0, ..., N-1` in order, then clears the canvas, swaps, reverts the
status to Idle with no media label and no frame fields, and exits the
playback loop with nothing pending. -/
theorem playVideo_noloop_spec (frames : List RgbImage) (dir_str : String)
    (s0 : DisplayStatus) (b0 : Nat) (evs0 : List Event)
    (hne : 0 < frames.length) :
    (PlaybackState.mk 0 b0 (videoStartStatus s0 dir_str frames.length) evs0).status.total_frames
      = some frames.length
  ∧ runLoop (playbackStep frames false) (List.replicate frames.length none)
      (PlaybackState.mk 0 b0 (videoStartStatus s0 dir_str frames.length) evs0) =
      RunResult.exited
        { frame_index := frames.length, brightness := b0,
          status := (videoStartStatus s0 dir_str frames.length).set_idle,
          events := evs0 ++
            ((List.range frames.length).flatMap (fun j =>
              [Event.drawFrame (frames.getD j []), Event.swap, Event.statusFrame j])
             ++ [Event.clear, Event.swap]) }
        none
  ∧ (videoStartStatus s0 dir_str frames.length).set_idle.state = DisplayState.Idle
  ∧ (videoStartStatus s0 dir_str frames.length).set_idle.current_media = none
  ∧ (videoStartStatus s0 dir_str frames.length).set_idle.frame = none
  ∧ (videoStartStatus s0 dir_str frames.length).set_idle.total_frames = none
  ∧ statusFrames
      ((List.range frames.length).flatMap (fun j =>
        [Event.drawFrame (frames.getD j []), Event.swap, Event.statusFrame j])
       ++ [Event.clear, Event.swap]) = List.range frames.length := by
  refine ⟨rfl, ?_, rfl, rfl, rfl, rfl, ?_⟩
  · have h := playback_run_aux frames frames.length 0
      (PlaybackState.mk 0 b0 (videoStartStatus s0 dir_str frames.length) evs0)
      hne (by omega) rfl
    rw [h, List.range_eq_range']
  · have h := statusFrames_flatMap (List.range frames.length) (fun j => frames.getD j [])
    simp only [statusFrames, List.filterMap_append] at h ⊢
    simpa using h

/-- C4 witness: a 3-frame non-looping run, evaluated concretely. -/
theorem playVideo_noloop_witness :
    runLoop
      (playbackStep [[Color.new 255 0 0], [Color.new 0 255 0], [Color.new 0 0 255]] false)
      (List.replicate 3 none)
      (PlaybackState.mk 0 75
        (videoStartStatus (DisplayStatus.new "0.1.0") "clip" 3) []) =
      RunResult.exited
        { frame_index := 3, brightness := 75,
          status := (videoStartStatus (DisplayStatus.new "0.1.0") "clip" 3).set_idle,
          events :=
            [Event.drawFrame [Color.new 255 0 0], Event.swap, Event.statusFrame 0,
             Event.drawFrame [Color.new 0 255 0], Event.swap, Event.statusFrame 1,
             Event.drawFrame [Color.new 0 0 255], Event.swap, Event.statusFrame 2,
             Event.clear, Event.swap] }
        none := by
  have h := (playVideo_noloop_spec
    [[Color.new 255 0 0], [Color.new 0 255 0], [Color.new 0 0 255]]
    "clip" (DisplayStatus.new "0.1.0") 75 [] (by decide)).2.1
  simpa using h

end LedMatrix
